import Mathlib

/-!
Verification of the ledger-interaction layer of the HiveMindCopilot
repository against its natural-language specification.

The ledger-facing Python code is embedded shallowly: pure computations
become Lean functions, Python exceptions become an explicit error type,
and the sequence of ledger transactions a routine issues is made explicit
as a list of call descriptions.  External collaborators (the Hedera SDK,
the `cryptography` Ed25519 primitive, the `json` standard library) are
modelled at the interface the code uses, as the specification directs.
-/

deriving instance DecidableEq for Except

namespace HiveMind

/-! ## Python-level error values

Python exceptions raised by the embedded code, carrying their message. -/

inductive PyError where
  | valueError (msg : String)
  | attributeError (msg : String)
  | genericException (msg : String)
deriving DecidableEq, Repr

/-! ## File-service call traces (deploy_registry.py, hedera_client.py)

`deploy_contract` in `deploy_registry.py` first runs a
`FileCreateTransaction` on which `setContents` is never called (the file
is created empty), then a single `FileAppendTransaction` whose contents
are the entire bytecode.  `HederaClient.create_file` runs a single
`FileCreateTransaction` carrying the full content and never appends. -/

inductive FileCall where
  | create (contents : List Nat)
  | append (contents : List Nat)
deriving DecidableEq, Repr

def FileCall.isAppend : FileCall → Bool
  | .create _ => false
  | .append _ => true

def FileCall.contents : FileCall → List Nat
  | .create c => c
  | .append c => c

/-- Embeds the file-service call sequence of `deploy_contract` in
`deploy_registry.py` (lines 94-114): one `FileCreateTransaction` with no
contents set, then one `FileAppendTransaction` carrying the whole
bytecode. -/
def deploy_contract_file_calls (bytecode : List Nat) : List FileCall :=
  [FileCall.create [], FileCall.append bytecode]

/-- Bytes of the assembled ledger file: concatenation of the contents of
the create call and all append calls, in call order. -/
def assembledBytes (calls : List FileCall) : List Nat :=
  (calls.map FileCall.contents).flatten

/-- Number of chunks the specification's ArtifactUploader computes:
`ceil(len / M)`. -/
def specChunkCount (len M : Nat) : Nat := (len + M - 1) / M

/-! ## Constructor-parameter dispatch (HederaClient.deploy_contract)

`deploy_contract` iterates `constructor_params.items()` in insertion
order and dispatches on the runtime type of each value with an
`isinstance` chain: `str`, then `int`, then `bool`, then `float`.
Python `bool` is a subclass of `int`, so `isinstance(value, int)` is
true for booleans; Python `int(x)` on a float truncates toward zero.
A value matching no branch is skipped without error. -/

inductive PyValue where
  | str (s : String)
  | int (n : Int)
  | bool (b : Bool)
  | float (q : Rat)
  | other
deriving DecidableEq, Repr

/-- Python `isinstance(v, str)`. -/
def PyValue.isinstStr : PyValue → Bool
  | .str _ => true
  | _ => false

/-- Python `isinstance(v, int)`: true for `int` and also for `bool`,
which is a subclass of `int`. -/
def PyValue.isinstInt : PyValue → Bool
  | .int _ => true
  | .bool _ => true
  | _ => false

/-- Python `isinstance(v, bool)`. -/
def PyValue.isinstBool : PyValue → Bool
  | .bool _ => true
  | _ => false

/-- Python `isinstance(v, float)`. -/
def PyValue.isinstFloat : PyValue → Bool
  | .float _ => true
  | _ => false

def PyValue.strVal : PyValue → String
  | .str s => s
  | _ => ""

def PyValue.boolVal : PyValue → Bool
  | .bool b => b
  | _ => false

def PyValue.floatVal : PyValue → Rat
  | .float q => q
  | _ => 0

/-- Python `str(value)` for the values that reach the integer branch
(`int` and `bool`). -/
def pyStrOfValue : PyValue → String
  | .str s => s
  | .int n => toString n
  | .bool b => if b then "True" else "False"
  | .float _ => ""
  | .other => ""

/-- Python `int(q)` on a float: truncation toward zero. -/
def pyIntOfFloat (q : Rat) : Int := q.num.tdiv q.den

/-- One `ContractFunctionParameters` call emitted by the dispatch. -/
inductive ParamEncoding where
  | addString (s : String)
  | addUint256 (digits : String)
  | addBool (b : Bool)
deriving DecidableEq, Repr

/-- Embeds the per-value `isinstance` chain of
`HederaClient.deploy_contract` (hedera_client.py lines 187-198); `none`
models the silent fall-through for a value matching no branch. -/
def addConstructorParam (v : PyValue) : Option ParamEncoding :=
  if v.isinstStr then some (ParamEncoding.addString v.strVal)
  else if v.isinstInt then some (ParamEncoding.addUint256 (pyStrOfValue v))
  else if v.isinstBool then some (ParamEncoding.addBool v.boolVal)
  else if v.isinstFloat then
    some (ParamEncoding.addUint256 (toString (pyIntOfFloat v.floatVal)))
  else none

/-- Embeds the parameter-building loop of `HederaClient.deploy_contract`:
iterate the map items in insertion order, emit an encoding per matched
value, skip the rest.  The loop raises nothing. -/
def constructorParamEncodings (ps : List (String × PyValue)) : List ParamEncoding :=
  ps.filterMap (fun kv => addConstructorParam kv.2)

/-! ## JSON values and serialization (json standard library model)

Message payloads are Python dicts holding JSON data.  They are embedded
as a mutual inductive so that every function below is structurally
recursive and kernel-reducible.  `pyDumps` models `json.dumps(m)` with
its default separators (insertion order of dict keys); `pyDumpsSorted`
models `json.dumps(m, sort_keys=True)` (every object's keys sorted
ascending, recursively).  The model covers payloads without
floating-point members and strings without control or non-ASCII
characters (whose `ensure_ascii` escaping is not modelled); both
serializers treat those the same way, so the comparisons below are
unaffected. -/

mutual
inductive PyJson where
  | str (s : String)
  | int (n : Int)
  | bool (b : Bool)
  | null
  | arr (xs : PyJsonList)
  | obj (kvs : PyJsonObj)
inductive PyJsonList where
  | nil
  | cons (hd : PyJson) (tl : PyJsonList)
inductive PyJsonObj where
  | nil
  | cons (key : String) (val : PyJson) (tl : PyJsonObj)
end

/-- JSON string escaping of one character (quote and backslash). -/
def jsonEscapeChar (c : Char) : List Char :=
  if c = '"' then ['\\', '"']
  else if c = '\\' then ['\\', '\\']
  else [c]

/-- JSON string literal: quoted and escaped. -/
def jsonQuote (s : String) : String :=
  ⟨'"' :: ((s.data.map jsonEscapeChar).flatten ++ ['"'])⟩

mutual
/-- Models `json.dumps(m)`: Python's default separators are a comma
followed by a space between items and a colon followed by a space after
each key; dict items appear in insertion order. -/
def pyDumps : PyJson → String
  | .str s => jsonQuote s
  | .int n => toString n
  | .bool b => if b then "true" else "false"
  | .null => "null"
  | .arr xs => "[" ++ pyDumpsList xs ++ "]"
  | .obj kvs => "\x7b" ++ pyDumpsObj kvs ++ "\x7d"
def pyDumpsList : PyJsonList → String
  | .nil => ""
  | .cons x .nil => pyDumps x
  | .cons x (PyJsonList.cons y tl) =>
      pyDumps x ++ ", " ++ pyDumpsList (PyJsonList.cons y tl)
def pyDumpsObj : PyJsonObj → String
  | .nil => ""
  | .cons k v .nil => jsonQuote k ++ ": " ++ pyDumps v
  | .cons k v (PyJsonObj.cons k' v' tl) =>
      jsonQuote k ++ ": " ++ pyDumps v ++ ", " ++ pyDumpsObj (PyJsonObj.cons k' v' tl)
end

/-- Python string comparison on character lists: lexicographic by code
point, as Python's `sorted` orders str keys. -/
def charListLe : List Char → List Char → Bool
  | [], _ => true
  | _ :: _, [] => false
  | c :: cs, d :: ds =>
      if c.toNat < d.toNat then true
      else if d.toNat < c.toNat then false
      else charListLe cs ds

/-- Python `a <= b` on strings. -/
def pyStrLe (a b : String) : Bool := charListLe a.data b.data

/-- Insert one key/value pair into an already key-sorted object. -/
def objInsert (k : String) (v : PyJson) : PyJsonObj → PyJsonObj
  | .nil => .cons k v .nil
  | .cons k' v' tl =>
      if pyStrLe k k' then .cons k v (.cons k' v' tl)
      else .cons k' v' (objInsert k v tl)

/-- Insertion sort of an object's items by key, ascending, as Python's
`sort_keys=True` orders dict items. -/
def pySortKeys : PyJsonObj → PyJsonObj
  | .nil => .nil
  | .cons k v tl => objInsert k v (pySortKeys tl)

mutual
/-- Recursively sort every object's keys; serializing the result with
`pyDumps` is what `json.dumps(m, sort_keys=True)` produces. -/
def sortJsonKeys : PyJson → PyJson
  | .str s => .str s
  | .int n => .int n
  | .bool b => .bool b
  | .null => .null
  | .arr xs => .arr (sortJsonList xs)
  | .obj kvs => .obj (pySortKeys (sortJsonObjVals kvs))
def sortJsonList : PyJsonList → PyJsonList
  | .nil => .nil
  | .cons x tl => .cons (sortJsonKeys x) (sortJsonList tl)
def sortJsonObjVals : PyJsonObj → PyJsonObj
  | .nil => .nil
  | .cons k v tl => .cons k (sortJsonKeys v) (sortJsonObjVals tl)
end

/-- Models `json.dumps(m, sort_keys=True)`. -/
def pyDumpsSorted (m : PyJson) : String := pyDumps (sortJsonKeys m)

/-- Whether an object's items are already listed in ascending key
order. -/
def objKeysSorted : PyJsonObj → Bool
  | .nil => true
  | .cons _ _ .nil => true
  | .cons k _ (PyJsonObj.cons k' v' tl) =>
      pyStrLe k k' && objKeysSorted (PyJsonObj.cons k' v' tl)

mutual
/-- Whether every object in the value already lists its keys in
ascending order, so that sorting the keys changes nothing. -/
def keysSortedJson : PyJson → Bool
  | .str _ => true
  | .int _ => true
  | .bool _ => true
  | .null => true
  | .arr xs => keysSortedList xs
  | .obj kvs => objKeysSorted kvs && keysSortedVals kvs
def keysSortedList : PyJsonList → Bool
  | .nil => true
  | .cons x tl => keysSortedJson x && keysSortedList tl
def keysSortedVals : PyJsonObj → Bool
  | .nil => true
  | .cons _ v tl => keysSortedJson v && keysSortedVals tl
end

/-- UTF-8 encoding of one character (by code point, standard table). -/
def utf8EncodeCharNat (c : Char) : List Nat :=
  let n := c.toNat
  if n < 128 then [n]
  else if n < 2048 then [192 + n / 64, 128 + n % 64]
  else if n < 65536 then [224 + n / 4096, 128 + n / 64 % 64, 128 + n % 64]
  else [240 + n / 262144, 128 + n / 4096 % 64, 128 + n / 64 % 64, 128 + n % 64]

/-- Models Python `s.encode("utf-8")` as a byte list. -/
def utf8Bytes (s : String) : List Nat :=
  (s.data.map utf8EncodeCharNat).flatten

/-- Embeds the serialization step of `HederaClient.submit_message`
(hedera_client.py line 111): `json.dumps(message).encode("utf-8")` —
insertion order, no key sorting.  These are the bytes handed to
`TopicMessageSubmitTransaction.setMessage`. -/
def submit_message_bytes (message : PyJson) : List Nat :=
  utf8Bytes (pyDumps message)

/-- Embeds the payload bytes `HederaClient.sign_message` signs
(hedera_client.py lines 265-266):
`json.dumps(message, sort_keys=True).encode()`. -/
def signed_payload_bytes (message : PyJson) : List Nat :=
  utf8Bytes (pyDumpsSorted message)

/-! ## Hex strings (models of bytes.fromhex and bytes.hex) -/

/-- Value of one hexadecimal digit character, if any. -/
def hexDigitVal? (c : Char) : Option Nat :=
  if 48 ≤ c.toNat ∧ c.toNat ≤ 57 then some (c.toNat - 48)
  else if 97 ≤ c.toNat ∧ c.toNat ≤ 102 then some (c.toNat - 87)
  else if 65 ≤ c.toNat ∧ c.toNat ≤ 70 then some (c.toNat - 55)
  else none

def hexDecodeChars : List Char → Option (List Nat)
  | [] => some []
  | [_] => none
  | c1 :: c2 :: rest =>
      match hexDigitVal? c1, hexDigitVal? c2, hexDecodeChars rest with
      | some hi, some lo, some bs => some ((16 * hi + lo) :: bs)
      | _, _, _ => none

/-- Models Python `bytes.fromhex(s)` for whitespace-free inputs: an even
number of hex digits, otherwise a ValueError (here `none`). -/
def pyBytesFromHex? (s : String) : Option (List Nat) :=
  hexDecodeChars s.data

/-- Lowercase hex digit character of a value below 16. -/
def hexDigitChar (n : Nat) : Char :=
  if n < 10 then Char.ofNat (48 + n) else Char.ofNat (87 + n)

/-- Models Python `bytes.hex()`: two lowercase digits per byte. -/
def pyBytesHex (bs : List Nat) : String :=
  ⟨(bs.map (fun b => [hexDigitChar (b / 16), hexDigitChar (b % 16)])).flatten⟩

/-- Embeds the prefix stripping both the constructor and the per-call
key readers perform: `if s.startswith("0x"): s = s[2:]`. -/
def strip0x (s : String) : String :=
  match s.data with
  | '0' :: 'x' :: rest => ⟨rest⟩
  | _ => s

/-! ## Process environment

The variables the client reads through `os.getenv`. -/

structure Env where
  hederaNetwork : Option String
  hederaAccountId : Option String
  hederaPrivateKey : Option String
deriving DecidableEq, Repr

def envWithKey (k : String) : Env :=
  { hederaNetwork := none, hederaAccountId := none, hederaPrivateKey := some k }

/-! ## Ed25519 primitive (symbolic model)

The code uses the external `cryptography` library's Ed25519 entirely as
a black box, as the specification's non-goals direct.  It is modelled as
a deterministic symbolic scheme over byte lists: a private key is its 32
seed bytes, the public-key bytes are an injective image of the seed, the
signature over a message is the seed followed by the message bytes, and
verification recomputes it.  `from_private_bytes` and
`from_public_bytes` accept exactly 32 bytes and raise otherwise. -/

def ed25519PubOf (priv : List Nat) : List Nat := priv

def ed25519Sign (priv msg : List Nat) : List Nat := priv ++ msg

def ed25519VerifyOk (pub sig msg : List Nat) : Bool := sig == pub ++ msg

/-! ## HederaClient.sign_message and verify_message -/

/-- Embeds `HederaClient.sign_message` (hedera_client.py lines 248-268):
re-reads `HEDERA_PRIVATE_KEY` from the environment on each call, strips
an optional `0x` prefix, decodes the hex into exactly 32 raw Ed25519 key
bytes, and signs the sorted-key JSON serialization of the message,
returning the signature as a hex string.  A missing key raises
AttributeError (`None.startswith`); non-hex input raises ValueError from
`bytes.fromhex`; any length other than 32 raises ValueError from
`from_private_bytes`. -/
def sign_message (env : Env) (message : PyJson) : Except PyError String :=
  match env.hederaPrivateKey with
  | none => .error (PyError.attributeError "NoneType object has no attribute startswith")
  | some keyStr =>
      match pyBytesFromHex? (strip0x keyStr) with
      | none => .error (PyError.valueError "non-hexadecimal number found in fromhex arg")
      | some keyBytes =>
          if keyBytes.length = 32 then
            .ok (pyBytesHex (ed25519Sign keyBytes (signed_payload_bytes message)))
          else .error (PyError.valueError "An Ed25519 private key is 32 bytes long")

/-- Embeds `HederaClient.verify_message` (hedera_client.py lines
270-290).  Decoding the public key and `from_public_bytes` sit before
the try block, so their exceptions propagate to the caller; decoding the
signature and running `verify` sit inside the try block, whose except
arm returns False. -/
def verify_message (message : PyJson) (signature public_key : String) :
    Except PyError Bool :=
  match pyBytesFromHex? public_key with
  | none => .error (PyError.valueError "non-hexadecimal number found in fromhex arg")
  | some pubBytes =>
      if pubBytes.length = 32 then
        match pyBytesFromHex? signature with
        | none => .ok false
        | some sigBytes =>
            .ok (ed25519VerifyOk pubBytes sigBytes (signed_payload_bytes message))
      else .error (PyError.valueError "An Ed25519 public key is 32 bytes long")

/-! ## HederaClient.create_topic -/

/-- The `TopicCreateTransaction` as built locally: its memo and the
submit key set on it. -/
structure TopicTx where
  memo : String
  submitKey : List Nat
deriving DecidableEq, Repr

/-- Embeds `HederaClient.create_topic` (hedera_client.py lines 69-98):
re-reads `HEDERA_PRIVATE_KEY` on each call, strips an optional `0x`
prefix, decodes the hex into exactly 32 raw Ed25519 key bytes (raising
exactly as `sign_message` does otherwise), derives the public-key bytes
and builds a topic transaction carrying the memo and that submit key.
The network execution and receipt are external; success is modelled as
returning the built transaction. -/
def create_topic (env : Env) (memo : String) : Except PyError TopicTx :=
  match env.hederaPrivateKey with
  | none => .error (PyError.attributeError "NoneType object has no attribute startswith")
  | some keyStr =>
      match pyBytesFromHex? (strip0x keyStr) with
      | none => .error (PyError.valueError "non-hexadecimal number found in fromhex arg")
      | some keyBytes =>
          if keyBytes.length = 32 then
            .ok { memo := memo, submitKey := ed25519PubOf keyBytes }
          else .error (PyError.valueError "An Ed25519 private key is 32 bytes long")

/-- Characterization used by claim C10: the key string is, after an
optional `0x` prefix, the hex spelling of exactly 32 raw bytes. -/
def isRawEd25519HexKey (s : String) : Bool :=
  match pyBytesFromHex? (strip0x s) with
  | some bs => bs.length == 32
  | none => false

/-! ## HederaClient.__init__ (credential resolution) -/

/-- Python `str.lower()` for ASCII strings (the only strings compared
here are network names). -/
def pyLowerChar (c : Char) : Char :=
  if 65 ≤ c.toNat ∧ c.toNat ≤ 90 then Char.ofNat (c.toNat + 32) else c

def pyLower (s : String) : String := ⟨s.data.map pyLowerChar⟩

/-- Interactions with the external Hedera SDK that `__init__` performs,
in order. -/
inductive InitEvent where
  | clientForTestnet
  | clientForMainnet
  | parseAccountId
  | parseKeyEd25519
  | parseKeyEcdsa
  | setOperator
deriving DecidableEq, Repr

/-- Outcomes of the external SDK parsers (`AccountId.fromString`,
`PrivateKey.fromString`, `PrivateKey.fromStringECDSA`), abstracted as
oracles: the embedding only relies on the order in which the code
consults them. -/
structure SdkParse where
  accountIdOk : Option String → Bool
  keyEd25519Ok : Option String → Bool
  keyEcdsaOk : Option String → Bool

/-- Credential parsing of `__init__` after the network was recognized:
parse the account id, try the ED25519 key parser, fall back to the ECDSA
key parser, then set the operator; any parse failure is re-raised by the
outer except arm.  `tr` is the trace accumulated so far. -/
def initCredentials (sdk : SdkParse) (env : Env) (tr : List InitEvent) :
    List InitEvent × Except PyError Unit :=
  let key := env.hederaPrivateKey.map strip0x
  let tr := tr ++ [InitEvent.parseAccountId]
  if sdk.accountIdOk env.hederaAccountId then
    let tr := tr ++ [InitEvent.parseKeyEd25519]
    if sdk.keyEd25519Ok key then
      (tr ++ [InitEvent.setOperator], .ok ())
    else
      let tr := tr ++ [InitEvent.parseKeyEcdsa]
      if sdk.keyEcdsaOk key then
        (tr ++ [InitEvent.setOperator], .ok ())
      else (tr, .error (PyError.genericException "failed to parse private key"))
  else (tr, .error (PyError.genericException "failed to parse account id"))

/-- Embeds `HederaClient.__init__` (hedera_client.py lines 29-67),
returning the ordered trace of SDK interactions next to the outcome.
The network name defaults to testnet and is compared lowercased; an
unrecognized name raises ValueError before any SDK interaction, so its
trace is empty. -/
def hederaClientInit (sdk : SdkParse) (env : Env) :
    List InitEvent × Except PyError Unit :=
  let network := env.hederaNetwork.getD "testnet"
  if pyLower network = "testnet" then
    initCredentials sdk env [InitEvent.clientForTestnet]
  else if pyLower network = "mainnet" then
    initCredentials sdk env [InitEvent.clientForMainnet]
  else
    ([], .error (PyError.valueError ("Unsupported network: " ++ network)))

/-! ## HederaClient.create_file -/

/-- Embeds `HederaClient.create_file` (hedera_client.py lines 124-150):
a single `FileCreateTransaction` carrying the full UTF-8 content of the
string; no append is ever issued. -/
def create_file_calls (content : String) : List FileCall :=
  [FileCall.create (utf8Bytes content)]

/-! ## Orchestrator: agent-protocol response wait (C7) -/

/-- The dict literal `_hcs10_wait_for_response` returns (orchestrator.py
lines 359-363). -/
def fabricatedHcs10Report : PyJson :=
  PyJson.obj (PyJsonObj.cons "vulnerabilities"
    (PyJson.arr (PyJsonList.cons (PyJson.str "reentrancy")
      (PyJsonList.cons (PyJson.str "unchecked-calls") PyJsonList.nil)))
    (PyJsonObj.cons "severity" (PyJson.str "high")
      (PyJsonObj.cons "recommendations"
        (PyJson.arr (PyJsonList.cons
          (PyJson.str "Implement checks-effects-interactions pattern")
          PyJsonList.nil))
        PyJsonObj.nil)))

/-- Embeds `HiveMindOrchestrator._hcs10_wait_for_response`
(orchestrator.py lines 356-363): the function takes only the topic id —
there is no timeout parameter — and immediately returns a fixed
fabricated report for every topic; it never polls, blocks, or raises. -/
def hcs10_wait_for_response (topic_id : String) : PyJson :=
  fabricatedHcs10Report

/-! ## Orchestrator: registry interaction (C8) -/

/-- Message text of a Python exception, as `str(e)` yields it. -/
def PyError.message : PyError → String
  | .valueError m => m
  | .attributeError m => m
  | .genericException m => m

/-- Python falsiness of an optional string: `None` and the empty string
are falsy, so `if not contract_id` rejects both. -/
def pyFalsyStr : Option String → Bool
  | none => true
  | some s => s.data.isEmpty

/-- Python `d.get(key, default)` on an embedded dict. -/
def objGet (kvs : PyJsonObj) (key : String) (dflt : PyJson) : PyJson :=
  match kvs with
  | .nil => dflt
  | .cons k v tl => if k = key then v else objGet tl key dflt

/-- JSON value of an optional string, `None` becoming null. -/
def pyOptStr : Option String → PyJson
  | some s => PyJson.str s
  | none => PyJson.null

/-- The simulated `get_contracts` result (orchestrator.py lines 289-307). -/
def getContractsResult (env : Env) (registry_id : String) : PyJson :=
  PyJson.obj (PyJsonObj.cons "contracts"
    (PyJson.arr (PyJsonList.cons
      (PyJson.obj (PyJsonObj.cons "id" (PyJson.str "0.0.1234567")
        (PyJsonObj.cons "name" (PyJson.str "SimpleToken")
          (PyJsonObj.cons "type" (PyJson.str "ERC20")
            (PyJsonObj.cons "created_at" (PyJson.str "2025-07-20T10:30:45Z")
              (PyJsonObj.cons "owner" (pyOptStr env.hederaAccountId)
                PyJsonObj.nil))))))
      (PyJsonList.cons
        (PyJson.obj (PyJsonObj.cons "id" (PyJson.str "0.0.7654321")
          (PyJsonObj.cons "name" (PyJson.str "NFTCollection")
            (PyJsonObj.cons "type" (PyJson.str "ERC721")
              (PyJsonObj.cons "created_at" (PyJson.str "2025-07-19T14:22:33Z")
                (PyJsonObj.cons "owner" (pyOptStr env.hederaAccountId)
                  PyJsonObj.nil))))))
        PyJsonList.nil)))
    (PyJsonObj.cons "registry_id" (PyJson.str registry_id) PyJsonObj.nil))

/-- The simulated `register_contract` result (orchestrator.py lines
309-319), for a present contract id. -/
def registerContractResult (registry_id cid : String) (metadata : Option PyJsonObj) :
    PyJson :=
  PyJson.obj (PyJsonObj.cons "status" (PyJson.str "registered")
    (PyJsonObj.cons "contract_id" (PyJson.str cid)
      (PyJsonObj.cons "registry_id" (PyJson.str registry_id)
        (PyJsonObj.cons "metadata" (PyJson.obj (metadata.getD PyJsonObj.nil))
          PyJsonObj.nil))))

/-- The simulated `get_contract_details` result (orchestrator.py lines
321-333), for a present contract id. -/
def contractDetailsResult (env : Env) (registry_id cid : String)
    (metadata : Option PyJsonObj) : PyJson :=
  PyJson.obj (PyJsonObj.cons "id" (PyJson.str cid)
    (PyJsonObj.cons "name"
      (match metadata with
        | some md => objGet md "name" (PyJson.str "Unknown Contract")
        | none => PyJson.str "Unknown Contract")
      (PyJsonObj.cons "type"
        (match metadata with
          | some md => objGet md "type" (PyJson.str "Unknown")
          | none => PyJson.str "Unknown")
        (PyJsonObj.cons "created_at" (PyJson.str "2025-07-21T16:00:00Z")
          (PyJsonObj.cons "owner" (pyOptStr env.hederaAccountId)
            (PyJsonObj.cons "registry_id" (PyJson.str registry_id)
              PyJsonObj.nil))))))

/-- Inner try-block dispatch of
`HiveMindOrchestrator.interact_with_registry` (orchestrator.py lines
284-337): a closed dispatch over the three action strings; a falsy
contract id on the two contract-specific actions raises ValueError
before anything else happens (the interactions are simulated — no
ledger call exists on any path); an unknown action raises ValueError. -/
def registryDispatch (env : Env) (registry_id action : String)
    (contract_id : Option String) (metadata : Option PyJsonObj) :
    Except PyError PyJson :=
  if action = "get_contracts" then
    .ok (getContractsResult env registry_id)
  else if action = "register_contract" then
    if pyFalsyStr contract_id then
      .error (PyError.valueError "Contract ID is required for registration")
    else
      .ok (registerContractResult registry_id (contract_id.getD "") metadata)
  else if action = "get_contract_details" then
    if pyFalsyStr contract_id then
      .error (PyError.valueError "Contract ID is required for getting details")
    else
      .ok (contractDetailsResult env registry_id (contract_id.getD "") metadata)
  else
    .error (PyError.valueError ("Unsupported action: " ++ action))

/-- Embeds `HiveMindOrchestrator.interact_with_registry` (orchestrator.py
lines 263-339): the dispatch runs inside a try block whose except arm
catches every exception, logs it, and re-raises it wrapped as a generic
Exception prefixed with "Failed to interact with registry: ". -/
def interact_with_registry (env : Env) (registry_id action : String)
    (contract_id : Option String) (metadata : Option PyJsonObj) :
    Except PyError PyJson :=
  match registryDispatch env registry_id action contract_id metadata with
  | .ok r => .ok r
  | .error e =>
      .error (PyError.genericException
        ("Failed to interact with registry: " ++ e.message))

/-! ## Sample values used by concrete instantiations -/

def sampleMsg : PyJson :=
  PyJson.obj (PyJsonObj.cons "a" (PyJson.int 1) PyJsonObj.nil)

def sampleMsgMutated : PyJson :=
  PyJson.obj (PyJsonObj.cons "a" (PyJson.int 2) PyJsonObj.nil)

def sampleKey : List Nat := List.replicate 32 0

def sampleKeyOther : List Nat := 1 :: List.replicate 31 0

def sampleSig : String := pyBytesHex (ed25519Sign sampleKey (signed_payload_bytes sampleMsg))

def sampleRawKeyHex : String :=
  "0x0000000000000000000000000000000000000000000000000000000000000000"

/-- Hex spelling of a DER-encoded Ed25519 private key (48 bytes): the
kind of key string the constructor's parse fallback can accept but the
per-call raw readers cannot. -/
def sampleDerKeyHex : String :=
  "302e020100300506032b6570042204200000000000000000000000000000000000000000000000000000000000000000"


/-! ## Supporting lemmas -/

theorem charToNat_lt (c : Char) : c.toNat < 1114112 := by
  rcases c.valid with h | h
  · exact Nat.lt_trans h (by norm_num)
  · exact h.2

theorem utf8EncodeCharNat_lt (c : Char) : ∀ b ∈ utf8EncodeCharNat c, b < 256 := by
  have hc := charToNat_lt c
  intro b hb
  simp only [utf8EncodeCharNat] at hb
  split at hb
  · simp at hb; omega
  · split at hb
    · simp at hb
      rcases hb with hb | hb <;> omega
    · split at hb
      · simp at hb
        rcases hb with hb | hb | hb <;> omega
      · simp at hb
        rcases hb with hb | hb | hb | hb <;> omega

theorem utf8Bytes_lt (s : String) : ∀ b ∈ utf8Bytes s, b < 256 := by
  intro b hb
  simp only [utf8Bytes, List.mem_flatten, List.mem_map] at hb
  obtain ⟨l, ⟨c, _, rfl⟩, hbl⟩ := hb
  exact utf8EncodeCharNat_lt c b hbl

theorem hexDigitVal_lt {c : Char} {v : Nat} (h : hexDigitVal? c = some v) : v < 16 := by
  simp only [hexDigitVal?] at h
  split at h
  · simp at h; omega
  · split at h
    · simp at h; omega
    · split at h
      · simp at h; omega
      · simp at h

theorem hexDecodeChars_lt : ∀ (cs : List Char) (bs : List Nat),
    hexDecodeChars cs = some bs → ∀ b ∈ bs, b < 256
  | [], bs, h => by
      cases Option.some.inj h
      intro b hb
      simp at hb
  | [_], bs, h => Option.noConfusion h
  | c1 :: c2 :: rest, bs, h => by
      unfold hexDecodeChars at h
      cases h1 : hexDigitVal? c1 with
      | none => rw [h1] at h; simp at h
      | some hi =>
        cases h2 : hexDigitVal? c2 with
        | none => rw [h1, h2] at h; simp at h
        | some lo =>
          cases h3 : hexDecodeChars rest with
          | none => rw [h1, h2, h3] at h; simp at h
          | some tl =>
            rw [h1, h2, h3] at h
            simp only [Option.some.injEq] at h
            subst h
            intro b hb
            rcases List.mem_cons.mp hb with rfl | hb
            · have hhi := hexDigitVal_lt h1
              have hlo := hexDigitVal_lt h2
              omega
            · exact hexDecodeChars_lt rest tl h3 b hb

theorem pyBytesFromHex_lt {s : String} {bs : List Nat}
    (h : pyBytesFromHex? s = some bs) : ∀ b ∈ bs, b < 256 :=
  hexDecodeChars_lt s.data bs h

theorem hexDigitVal_hexDigitChar : ∀ v < 16, hexDigitVal? (hexDigitChar v) = some v := by
  decide

theorem hexDigitChar_ne_x : ∀ v < 16, (hexDigitChar v == 'x') = false := by
  decide

theorem pyBytesHex_data (b : Nat) (bs : List Nat) :
    (pyBytesHex (b :: bs)).data
      = hexDigitChar (b / 16) :: hexDigitChar (b % 16) :: (pyBytesHex bs).data := by
  simp [pyBytesHex]

theorem pyBytesFromHex_pyBytesHex : ∀ (bs : List Nat), (∀ b ∈ bs, b < 256) →
    pyBytesFromHex? (pyBytesHex bs) = some bs
  | [], _ => rfl
  | b :: bs, h => by
      have hb : b < 256 := h b (List.mem_cons_self b bs)
      have ih := pyBytesFromHex_pyBytesHex bs (fun x hx => h x (List.mem_cons_of_mem _ hx))
      unfold pyBytesFromHex? at ih ⊢
      rw [pyBytesHex_data]
      unfold hexDecodeChars
      rw [hexDigitVal_hexDigitChar _ (by omega), hexDigitVal_hexDigitChar _ (by omega), ih]
      have hsplit : 16 * (b / 16) + b % 16 = b := by omega
      show some ((16 * (b / 16) + b % 16) :: bs) = some (b :: bs)
      rw [hsplit]

theorem strip0x_of_ne (c1 c2 : Char) (cs : List Char) (h : (c2 == 'x') = false) :
    strip0x ⟨c1 :: c2 :: cs⟩ = ⟨c1 :: c2 :: cs⟩ := by
  unfold strip0x
  split
  · next heq =>
      injection heq with h1 h2
      injection h2 with h2 _
      subst h2
      simp at h
  · rfl

theorem strip0x_pyBytesHex (b : Nat) (bs : List Nat) :
    strip0x (pyBytesHex (b :: bs)) = pyBytesHex (b :: bs) :=
  strip0x_of_ne (hexDigitChar (b / 16)) (hexDigitChar (b % 16)) _
    (hexDigitChar_ne_x _ (by omega))


theorem objKeysSorted_tail {k : String} {v : PyJson} {tl : PyJsonObj}
    (h : objKeysSorted (PyJsonObj.cons k v tl) = true) : objKeysSorted tl = true := by
  cases tl with
  | nil => rfl
  | cons k' v' tl' =>
      unfold objKeysSorted at h
      simp at h
      exact h.2

theorem pySortKeys_eq_of_sorted : ∀ (kvs : PyJsonObj), objKeysSorted kvs = true →
    pySortKeys kvs = kvs
  | .nil, _ => rfl
  | .cons k v tl, h => by
      have htl := objKeysSorted_tail h
      unfold pySortKeys
      rw [pySortKeys_eq_of_sorted tl htl]
      cases tl with
      | nil => rfl
      | cons k' v' tl' =>
          unfold objKeysSorted at h
          simp at h
          unfold objInsert
          rw [if_pos h.1]

mutual
theorem sortJsonKeys_eq_of_sorted : ∀ (m : PyJson), keysSortedJson m = true →
    sortJsonKeys m = m
  | .str _, _ => rfl
  | .int _, _ => rfl
  | .bool _, _ => rfl
  | .null, _ => rfl
  | .arr xs, h => by
      unfold sortJsonKeys
      rw [sortJsonList_eq_of_sorted xs (by simpa [keysSortedJson] using h)]
  | .obj kvs, h => by
      unfold sortJsonKeys
      have hh : objKeysSorted kvs = true ∧ keysSortedVals kvs = true := by
        simpa [keysSortedJson] using h
      rw [sortJsonObjVals_eq_of_sorted kvs hh.2, pySortKeys_eq_of_sorted kvs hh.1]
theorem sortJsonList_eq_of_sorted : ∀ (xs : PyJsonList), keysSortedList xs = true →
    sortJsonList xs = xs
  | .nil, _ => rfl
  | .cons x tl, h => by
      unfold sortJsonList
      have hh : keysSortedJson x = true ∧ keysSortedList tl = true := by
        simpa [keysSortedList] using h
      rw [sortJsonKeys_eq_of_sorted x hh.1, sortJsonList_eq_of_sorted tl hh.2]
theorem sortJsonObjVals_eq_of_sorted : ∀ (kvs : PyJsonObj), keysSortedVals kvs = true →
    sortJsonObjVals kvs = kvs
  | .nil, _ => rfl
  | .cons k v tl, h => by
      unfold sortJsonObjVals
      have hh : keysSortedJson v = true ∧ keysSortedVals tl = true := by
        simpa [keysSortedVals] using h
      rw [sortJsonKeys_eq_of_sorted v hh.1, sortJsonObjVals_eq_of_sorted tl hh.2]
end

/-! ## Claim C1: chunked artifact upload -/

/-- Claim C1, counterexample: on the 10,000-byte payload with the 4,096
byte chunk limit, the registry deployer issues one append call rather
than the ceil(10000/4096) - 1 = 2 appends the claim requires, and its
create call carries no payload bytes rather than the first chunk. -/
theorem upload_ten_thousand_not_chunked :
    (deploy_contract_file_calls (List.replicate 10000 0)).countP FileCall.isAppend = 1
    ∧ specChunkCount 10000 4096 - 1 = 2
    ∧ (deploy_contract_file_calls (List.replicate 10000 0)).head?.map FileCall.contents
        = some [] := by
  refine ⟨rfl, by norm_num [specChunkCount], rfl⟩

/-- Claim C1, amended: the registry deployer performs no chunk
splitting: for every payload it issues exactly one create call carrying
no bytes followed by exactly one append call carrying the entire
payload, so the assembled file preserves the payload byte-for-byte but
the number of append calls is always one, independent of payload size
and of any per-transaction size limit. -/
theorem deploy_registry_upload_shape (payload : List Nat) :
    (deploy_contract_file_calls payload).countP FileCall.isAppend = 1
    ∧ (deploy_contract_file_calls payload).countP (fun c => !(FileCall.isAppend c)) = 1
    ∧ (deploy_contract_file_calls payload).head?.map FileCall.contents = some []
    ∧ assembledBytes (deploy_contract_file_calls payload) = payload := by
  refine ⟨rfl, rfl, rfl, ?_⟩
  simp [assembledBytes, deploy_contract_file_calls, FileCall.contents]

/-! ## Claim C2: unsupported constructor-parameter types -/

/-- Claim C2, counterexample: a constructor-parameter map holding the
float value 5/2 does not make deployment fail with any error — the
builder silently coerces it to the unsigned-256 encoding of the
truncated value 2. -/
theorem float_param_coerced_not_rejected :
    constructorParamEncodings [("supply", PyValue.float (Rat.divInt 5 2))]
      = [ParamEncoding.addUint256 "2"] := by decide

/-- Claim C2, amended: the parameter builder of
`HederaClient.deploy_contract` never raises on a value of unsupported
type: a float parameter is coerced to the unsigned-256 encoding of its
truncation toward zero, and a value matching no branch of the dispatch
is silently dropped.  No `UnsupportedParameterTypeError` (nor any other
local validation failure) exists on this path. -/
theorem constructor_params_never_fail (ps : List (String × PyValue))
    (label : String) (q : Rat) :
    constructorParamEncodings (ps ++ [(label, PyValue.float q)])
      = constructorParamEncodings ps
        ++ [ParamEncoding.addUint256 (toString (pyIntOfFloat q))]
    ∧ constructorParamEncodings (ps ++ [(label, PyValue.other)])
      = constructorParamEncodings ps := by
  constructor <;>
    simp [constructorParamEncodings, addConstructorParam, PyValue.isinstStr,
      PyValue.isinstInt, PyValue.isinstBool, PyValue.isinstFloat, PyValue.floatVal]

/-! ## Claim C3: boolean constructor parameters -/

/-- Claim C3: at the failing input, constructor parameters holding only
the boolean True, the dispatch emits the unsigned-256 encoding of the
Python string True instead of a boolean encoding: the isinstance int
branch captures booleans because Python bool is a subclass of int, so
the explicit addBool branch below it is unreachable. -/
theorem bool_param_takes_integer_branch :
    constructorParamEncodings [("flag", PyValue.bool true)]
      = [ParamEncoding.addUint256 "True"] := by decide

/-! ## Claim C7: awaiting an agent-protocol response -/

/-- Claim C7, counterexample: awaiting a response on topic 0.0.topic123
— a channel that never receives a message, since the function consults
nothing — returns a fabricated audit report immediately instead of
failing with a timeout error; the operation does not even accept a
caller-supplied timeout. -/
theorem await_response_fabricated_at_topic :
    hcs10_wait_for_response "0.0.topic123" = fabricatedHcs10Report := rfl

/-- Claim C7, amended: the orchestrator's wait-for-response helper takes
only the topic id — there is no caller-supplied timeout parameter — and
for every topic returns the same fixed fabricated report immediately; it
never polls the channel, never blocks past a deadline, and never raises
a timeout error. -/
theorem await_response_always_fabricated (topic : String) :
    hcs10_wait_for_response topic = fabricatedHcs10Report := rfl

/-! ## Claim C8: registry-action dispatch and its error surface -/

/-- Claim C8, counterexample: registering with no contract id fails, but
the error surfacing to the caller is the generic wrapper exception, not
the typed missing-parameter ValueError the dispatch raised internally. -/
theorem register_missing_id_surfaces_generic :
    interact_with_registry
        { hederaNetwork := none, hederaAccountId := none, hederaPrivateKey := none }
        "0.0.500" "register_contract" none none
      = Except.error (PyError.genericException
          "Failed to interact with registry: Contract ID is required for registration") :=
  rfl

/-- Claim C8, amended: the dispatch is closed over get_contracts,
register_contract and get_contract_details; a missing (or empty, which
Python treats as falsy) contract id on the two contract-specific actions
raises a missing-parameter ValueError inside the dispatch, before any
ledger interaction, and any unknown action an unsupported-action
ValueError — but the surrounding handler catches every such error and
re-raises it wrapped as a generic "Failed to interact with registry"
exception, so the typed validation errors never reach the caller. -/
theorem registry_dispatch_validation (env : Env) (rid action : String)
    (cid : Option String) (md : Option PyJsonObj)
    (h1 : action = "get_contracts" → False)
    (h2 : action = "register_contract" → False)
    (h3 : action = "get_contract_details" → False) :
    interact_with_registry env rid "register_contract" none md
      = Except.error (PyError.genericException
          "Failed to interact with registry: Contract ID is required for registration")
    ∧ interact_with_registry env rid "register_contract" (some "") md
      = Except.error (PyError.genericException
          "Failed to interact with registry: Contract ID is required for registration")
    ∧ interact_with_registry env rid "get_contract_details" none md
      = Except.error (PyError.genericException
          "Failed to interact with registry: Contract ID is required for getting details")
    ∧ registryDispatch env rid "register_contract" none md
      = Except.error (PyError.valueError "Contract ID is required for registration")
    ∧ interact_with_registry env rid action cid md
      = Except.error (PyError.genericException
          ("Failed to interact with registry: Unsupported action: " ++ action))
    ∧ (interact_with_registry env rid "get_contracts" cid md).isOk = true := by
  refine ⟨rfl, rfl, rfl, rfl, ?_, rfl⟩
  unfold interact_with_registry registryDispatch
  rw [if_neg h1, if_neg h2, if_neg h3]
  rfl

/-- Witness for the amended C8 theorem, at the unknown action
audit_contract and a missing contract id. -/
theorem registry_dispatch_validation_witness :
    interact_with_registry
        { hederaNetwork := none, hederaAccountId := none, hederaPrivateKey := none }
        "0.0.500" "register_contract" none none
      = Except.error (PyError.genericException
          "Failed to interact with registry: Contract ID is required for registration")
    ∧ interact_with_registry
        { hederaNetwork := none, hederaAccountId := none, hederaPrivateKey := none }
        "0.0.500" "register_contract" (some "") none
      = Except.error (PyError.genericException
          "Failed to interact with registry: Contract ID is required for registration")
    ∧ interact_with_registry
        { hederaNetwork := none, hederaAccountId := none, hederaPrivateKey := none }
        "0.0.500" "get_contract_details" none none
      = Except.error (PyError.genericException
          "Failed to interact with registry: Contract ID is required for getting details")
    ∧ registryDispatch
        { hederaNetwork := none, hederaAccountId := none, hederaPrivateKey := none }
        "0.0.500" "register_contract" none none
      = Except.error (PyError.valueError "Contract ID is required for registration")
    ∧ interact_with_registry
        { hederaNetwork := none, hederaAccountId := none, hederaPrivateKey := none }
        "0.0.500" "audit_contract" (some "0.0.7") none
      = Except.error (PyError.genericException
          ("Failed to interact with registry: Unsupported action: " ++ "audit_contract"))
    ∧ (interact_with_registry
        { hederaNetwork := none, hederaAccountId := none, hederaPrivateKey := none }
        "0.0.500" "get_contracts" (some "0.0.7") none).isOk = true :=
  registry_dispatch_validation
    { hederaNetwork := none, hederaAccountId := none, hederaPrivateKey := none }
    "0.0.500" "audit_contract" (some "0.0.7") none
    (by decide) (by decide) (by decide)

/-! ## Claim C4: verification never raises -/

/-- Claim C4, counterexample: with the malformed public-key string zz,
verification raises the ValueError from bytes.fromhex instead of
returning false: the public-key decoding happens before the try block,
so its exception propagates. -/
theorem verify_malformed_pubkey_raises :
    verify_message (PyJson.obj PyJsonObj.nil) "00" "zz"
      = Except.error (PyError.valueError "non-hexadecimal number found in fromhex arg") :=
  rfl

/-- Claim C4, amended: provided the public-key string decodes to exactly
32 bytes, verification returns a boolean and never raises — a malformed
signature string, like any failure of the verify primitive, yields false
— but an exception while decoding the public-key string itself (non-hex
input, or a byte length other than 32) propagates to the caller rather
than becoming false. -/
theorem verify_total_for_wellformed_pubkey (m : PyJson) (sig pk : String)
    (pb : List Nat) (hpk : pyBytesFromHex? pk = some pb) (hlen : pb.length = 32) :
    (∃ b : Bool, verify_message m sig pk = Except.ok b)
    ∧ (pyBytesFromHex? sig = none → verify_message m sig pk = Except.ok false) := by
  cases hs : pyBytesFromHex? sig with
  | none =>
      have hv : verify_message m sig pk = Except.ok false := by
        unfold verify_message
        rw [hpk, hs]
        simp [hlen]
      exact ⟨⟨false, hv⟩, fun _ => hv⟩
  | some sb =>
      refine ⟨⟨ed25519VerifyOk pb sb (signed_payload_bytes m), ?_⟩, ?_⟩
      · unfold verify_message
        rw [hpk, hs]
        simp [hlen]
      · intro hnone
        exact Option.noConfusion hnone

/-- Witness for the amended C4 theorem: at the all-zero 32-byte public
key and the malformed signature string zz, verification returns false
rather than raising. -/
theorem verify_total_witness :
    (∃ b : Bool, verify_message sampleMsg "zz"
        "0000000000000000000000000000000000000000000000000000000000000000"
        = Except.ok b)
    ∧ (pyBytesFromHex? "zz" = none →
        verify_message sampleMsg "zz"
          "0000000000000000000000000000000000000000000000000000000000000000"
          = Except.ok false) :=
  verify_total_for_wellformed_pubkey sampleMsg "zz"
    "0000000000000000000000000000000000000000000000000000000000000000"
    (List.replicate 32 0) (by decide) (by decide)

/-! ## Claim C5: one canonical serialization for submit and sign -/

/-- Claim C5, counterexample: for the message whose dict lists b: 1
before a: 2, the bytes submitted to the topic differ from the bytes the
signer computes a signature over — submission serializes in insertion
order while signing sorts the keys. -/
theorem submit_and_sign_bytes_differ :
    (submit_message_bytes (PyJson.obj (PyJsonObj.cons "b" (PyJson.int 1)
        (PyJsonObj.cons "a" (PyJson.int 2) PyJsonObj.nil)))
      == signed_payload_bytes (PyJson.obj (PyJsonObj.cons "b" (PyJson.int 1)
        (PyJsonObj.cons "a" (PyJson.int 2) PyJsonObj.nil)))) = false := by decide

/-- Claim C5, amended: submit_message serializes the whole message with
json.dumps in dict insertion order (and itself neither sorts keys nor
signs), while sign_message and verify_message serialize with
sort_keys=True; the submitted bytes therefore coincide with the bytes a
signature would be computed over exactly when every object of the
message already lists its keys in ascending order, and differ otherwise
as the counterexample shows. -/
theorem submit_bytes_eq_signed_of_sorted (m : PyJson)
    (h : keysSortedJson m = true) :
    submit_message_bytes m = signed_payload_bytes m := by
  unfold submit_message_bytes signed_payload_bytes pyDumpsSorted
  rw [sortJsonKeys_eq_of_sorted m h]

/-- Witness for the amended C5 theorem at the key-sorted message listing
a: 2 before b: 1. -/
theorem submit_bytes_eq_signed_witness :
    submit_message_bytes (PyJson.obj (PyJsonObj.cons "a" (PyJson.int 2)
        (PyJsonObj.cons "b" (PyJson.int 1) PyJsonObj.nil)))
      = signed_payload_bytes (PyJson.obj (PyJsonObj.cons "a" (PyJson.int 2)
        (PyJsonObj.cons "b" (PyJson.int 1) PyJsonObj.nil))) :=
  submit_bytes_eq_signed_of_sorted
    (PyJson.obj (PyJsonObj.cons "a" (PyJson.int 2)
      (PyJsonObj.cons "b" (PyJson.int 1) PyJsonObj.nil))) (by decide)

/-! ## Claim C9: unrecognized network fails before credentials -/

/-- Claim C9: with a configured network name that is neither testnet nor
mainnet case-insensitively, client construction fails with the
unsupported-network ValueError while the SDK-interaction trace is still
empty: no network client is built, no network call is made, and neither
the account identifier nor the private key has been parsed. -/
theorem invalid_network_fails_before_credentials (sdk : SdkParse) (env : Env)
    (n : String) (hn : env.hederaNetwork = some n)
    (h1 : pyLower n = "testnet" → False) (h2 : pyLower n = "mainnet" → False) :
    hederaClientInit sdk env
      = ([], Except.error (PyError.valueError ("Unsupported network: " ++ n))) := by
  simp only [hederaClientInit, hn, Option.getD_some]
  rw [if_neg h1, if_neg h2]

/-- Witness for the C9 theorem at the network name invalid, with parse
oracles that would accept every credential. -/
theorem invalid_network_witness :
    hederaClientInit
        { accountIdOk := fun _ => true, keyEd25519Ok := fun _ => true,
          keyEcdsaOk := fun _ => true }
        { hederaNetwork := some "invalid", hederaAccountId := some "0.0.2",
          hederaPrivateKey := some "00" }
      = ([], Except.error (PyError.valueError ("Unsupported network: " ++ "invalid"))) :=
  invalid_network_fails_before_credentials
    { accountIdOk := fun _ => true, keyEd25519Ok := fun _ => true,
      keyEcdsaOk := fun _ => true }
    { hederaNetwork := some "invalid", hederaAccountId := some "0.0.2",
      hederaPrivateKey := some "00" }
    "invalid" rfl (by decide) (by decide)

/-! ## Claim C10: raw-Ed25519 key requirement of topic creation and signing -/

/-- Claim C10: topic creation and message signing re-read the configured
private-key string on each call (each consults the environment passed to
that call) and succeed exactly when the string is, after an optional 0x
prefix, the hex spelling of exactly 32 raw Ed25519 key bytes; any other
configured key — a DER-encoded key such as the constructor's parse
fallback accepts, hex of any other length, or a non-hex string — makes
both raise an exception instead of returning a topic transaction or a
signature. -/
theorem key_readers_require_raw_ed25519 (env : Env) (memo : String) (m : PyJson)
    (k : String) (hk : env.hederaPrivateKey = some k) :
    (create_topic env memo).isOk = isRawEd25519HexKey k
    ∧ (sign_message env m).isOk = isRawEd25519HexKey k := by
  simp only [create_topic, sign_message, isRawEd25519HexKey, hk]
  cases hdec : pyBytesFromHex? (strip0x k) with
  | none => exact ⟨rfl, rfl⟩
  | some bs =>
      by_cases hl : bs.length = 32
      · simp [hl, Except.isOk, Except.toBool]
      · have hb : (bs.length == 32) = false := beq_eq_false_iff_ne.mpr hl
        simp [hl, hb, Except.isOk, Except.toBool]

/-- Witness for the C10 theorem: at the 0x-prefixed all-zero raw key
both operations succeed, and at the DER-encoded key string (which is 48
bytes of hex) both raise. -/
theorem key_readers_witness :
    ((create_topic (envWithKey sampleRawKeyHex) "HiveMind Topic").isOk
        = isRawEd25519HexKey sampleRawKeyHex
      ∧ (sign_message (envWithKey sampleRawKeyHex) sampleMsg).isOk
        = isRawEd25519HexKey sampleRawKeyHex)
    ∧ ((create_topic (envWithKey sampleDerKeyHex) "HiveMind Topic").isOk
        = isRawEd25519HexKey sampleDerKeyHex
      ∧ (sign_message (envWithKey sampleDerKeyHex) sampleMsg).isOk
        = isRawEd25519HexKey sampleDerKeyHex)
    ∧ isRawEd25519HexKey sampleRawKeyHex = true
    ∧ isRawEd25519HexKey sampleDerKeyHex = false :=
  ⟨key_readers_require_raw_ed25519 (envWithKey sampleRawKeyHex) "HiveMind Topic"
      sampleMsg sampleRawKeyHex rfl,
    key_readers_require_raw_ed25519 (envWithKey sampleDerKeyHex) "HiveMind Topic"
      sampleMsg sampleDerKeyHex rfl,
    by decide, by decide⟩

/-! ## Claim C6: sign/verify round trip and rejection -/

/-- Evaluation of `verify_message` when both the public key and the
signature decode, the key to 32 bytes. -/
theorem verify_message_eval (m : PyJson) (sig pk : String) (pb sb : List Nat)
    (hpk : pyBytesFromHex? pk = some pb) (hlen : pb.length = 32)
    (hsig : pyBytesFromHex? sig = some sb) :
    verify_message m sig pk
      = Except.ok (ed25519VerifyOk pb sb (signed_payload_bytes m)) := by
  unfold verify_message
  rw [hpk, hsig]
  simp [hlen]

/-- Evaluation of `sign_message` when the configured key decodes to 32
bytes. -/
theorem sign_message_eval (env : Env) (m : PyJson) (k : String) (kb : List Nat)
    (hk : env.hederaPrivateKey = some k)
    (hdec : pyBytesFromHex? (strip0x k) = some kb) (hlen : kb.length = 32) :
    sign_message env m
      = Except.ok (pyBytesHex (ed25519Sign kb (signed_payload_bytes m))) := by
  simp only [sign_message, hk]
  rw [hdec]
  simp [hlen]

/-- Claim C6: under the symbolic model of the Ed25519 black box, a
signature produced by sign_message under a 32-byte key verifies as true
against the matching public key; against the public key of any other
key pair it verifies as false; and verifying any message whose
sorted-key serialization differs in any byte from the signed one yields
false.  Signing and verifying use the same sorted-key serialization, so
the round trip holds with no serialization mismatch. -/
theorem sign_verify_roundtrip (m mMut : PyJson) (K K' : List Nat) (sig : String)
    (hK32 : K.length = 32) (hKb : ∀ b ∈ K, b < 256)
    (hK32' : K'.length = 32) (hK'b : ∀ b ∈ K', b < 256)
    (hne : K = K' → False)
    (hmut : signed_payload_bytes mMut = signed_payload_bytes m → False)
    (hsig : sign_message (envWithKey (pyBytesHex K)) m = Except.ok sig) :
    verify_message m sig (pyBytesHex (ed25519PubOf K)) = Except.ok true
    ∧ verify_message m sig (pyBytesHex (ed25519PubOf K')) = Except.ok false
    ∧ verify_message mMut sig (pyBytesHex (ed25519PubOf K)) = Except.ok false := by
  obtain ⟨b0, rest, hKcons⟩ : ∃ b0 rest, K = b0 :: rest := by
    cases K with
    | nil => simp at hK32
    | cons b0 rest => exact ⟨b0, rest, rfl⟩
  have hstrip : strip0x (pyBytesHex K) = pyBytesHex K := by
    rw [hKcons]; exact strip0x_pyBytesHex b0 rest
  have hround : pyBytesFromHex? (pyBytesHex K) = some K :=
    pyBytesFromHex_pyBytesHex K hKb
  have hdec : pyBytesFromHex? (strip0x (pyBytesHex K)) = some K := by
    rw [hstrip]; exact hround
  have hsigval := sign_message_eval (envWithKey (pyBytesHex K)) m (pyBytesHex K) K
    rfl hdec hK32
  rw [hsigval] at hsig
  injection hsig with hsigeq
  subst hsigeq
  have hsb : ∀ x ∈ ed25519Sign K (signed_payload_bytes m), x < 256 := by
    intro x hx
    rcases List.mem_append.mp hx with h | h
    · exact hKb x h
    · exact utf8Bytes_lt (pyDumpsSorted m) x h
  have hsround : pyBytesFromHex? (pyBytesHex (ed25519Sign K (signed_payload_bytes m)))
      = some (ed25519Sign K (signed_payload_bytes m)) :=
    pyBytesFromHex_pyBytesHex _ hsb
  have hround' : pyBytesFromHex? (pyBytesHex K') = some K' :=
    pyBytesFromHex_pyBytesHex K' hK'b
  refine ⟨?_, ?_, ?_⟩
  · rw [verify_message_eval m (pyBytesHex (ed25519Sign K (signed_payload_bytes m)))
      (pyBytesHex (ed25519PubOf K)) K (ed25519Sign K (signed_payload_bytes m))
      hround hK32 hsround]
    simp [ed25519VerifyOk, ed25519PubOf, ed25519Sign]
  · rw [verify_message_eval m (pyBytesHex (ed25519Sign K (signed_payload_bytes m)))
      (pyBytesHex (ed25519PubOf K')) K' (ed25519Sign K (signed_payload_bytes m))
      hround' hK32' hsround]
    simp only [ed25519VerifyOk, ed25519PubOf, ed25519Sign]
    have hdiff : ¬ (K ++ signed_payload_bytes m = K' ++ signed_payload_bytes m) := by
      intro heq
      exact hne (List.append_inj heq (hK32.trans hK32'.symm)).1
    rw [beq_eq_false_iff_ne.mpr hdiff]
  · rw [verify_message_eval mMut (pyBytesHex (ed25519Sign K (signed_payload_bytes m)))
      (pyBytesHex (ed25519PubOf K)) K (ed25519Sign K (signed_payload_bytes m))
      hround hK32 hsround]
    simp only [ed25519VerifyOk, ed25519PubOf, ed25519Sign]
    have hdiff : ¬ (K ++ signed_payload_bytes m = K ++ signed_payload_bytes mMut) := by
      intro heq
      exact hmut (List.append_cancel_left heq).symm
    rw [beq_eq_false_iff_ne.mpr hdiff]

/-- Witness for the C6 theorem at the all-zero key, a second key
differing in its first byte, the message a: 1 and its mutation a: 2. -/
theorem sign_verify_roundtrip_witness :
    verify_message sampleMsg sampleSig (pyBytesHex (ed25519PubOf sampleKey))
      = Except.ok true
    ∧ verify_message sampleMsg sampleSig (pyBytesHex (ed25519PubOf sampleKeyOther))
      = Except.ok false
    ∧ verify_message sampleMsgMutated sampleSig (pyBytesHex (ed25519PubOf sampleKey))
      = Except.ok false :=
  sign_verify_roundtrip sampleMsg sampleMsgMutated sampleKey sampleKeyOther sampleSig
    (by decide) (by decide) (by decide) (by decide) (by decide) (by decide) (by decide)

end HiveMind
